import Mathlib

/-!
Verification of the schema-relevance retrieval and query agents of the
`db_query_agent` repository.

The repository contains three agent implementations built on the same ideas:
* `DatabaseSchemaAnalyzer` (src/db_schema_analyzer.py): keyword search over the
  `comment_on_table` / `comment_on_column` metadata tables, a relevance score
  computed by a window count, an introspection fallback for sparse column
  matches, and a capped context formatter.
* `MinimalSQLAgent` (src/sql_agent_minimal.py): the agent actually used by
  `app.py`.  Its SQL `LIMIT` clauses are commented out, its column query has
  no keyword filter, and it falls back to all commented tables when nothing
  matches.
* `SimpleSQLAgent` (src/sql_agent_simple.py): capped variant whose column
  fallback fires only when the keyword match yields zero columns.

We model the metadata database as lists of rows, SQL `LIKE` by an executable
matcher, `ORDER BY` by insertion sort, the LLM endpoint and the live SQL
executor by oracle functions, and each Python method by a pure function.
-/

/-- Accumulator pass behind `pySplitWs`: collect the current fragment in
reverse and emit it at each whitespace boundary. -/
def splitWsAux : List Char → List Char → List String
  | [], acc => if acc = [] then [] else [⟨acc.reverse⟩]
  | c :: cs, acc =>
      if c.isWhitespace then
        (if acc = [] then [] else [⟨acc.reverse⟩]) ++ splitWsAux cs []
      else splitWsAux cs (c :: acc)

/-- Python `str.split()` with no argument: split on runs of whitespace and
drop empty fragments. -/
def pySplitWs (s : String) : List String := splitWsAux s.data []

/-- Lowercasing as applied by Python `str.lower()` (ASCII letters). -/
def pyLower (s : String) : String := ⟨s.data.map Char.toLower⟩

/-- SQL `LIKE` pattern matching over explicit character lists: `%` matches any
remaining suffix (expressed by trying every drop count), `_` matches exactly
one character, every other pattern character matches itself. -/
def likeMatch : List Char → List Char → Bool
  | [], s => s.isEmpty
  | p :: ps, s =>
      if p = '%' then
        (List.range (s.length + 1)).any (fun n => likeMatch ps (s.drop n))
      else
        match s with
        | [] => false
        | c :: s' => (if p = '_' then true else p == c) && likeMatch ps s'

/-- `LIKE` on strings. -/
def strLike (pat s : String) : Bool := likeMatch pat.data s.data

/-- SQL `LIKE ANY(array_of_patterns)`. -/
def likeAny (patterns : List String) (s : String) : Bool :=
  patterns.any (fun p => strLike p s)

/-- The search tokens of a question: `query.lower().split()`. -/
def searchTerms (q : String) : List String := pySplitWs (pyLower q)

/-- One `'%' + term + '%'` pattern per search term
(`patterns = [f'%{term}%' for term in search_terms]`). -/
def mkPatterns (q : String) : List String :=
  (searchTerms q).map (fun t => "%" ++ t ++ "%")

/-- A row of the `comment_on_table` metadata table. -/
structure TableCommentRow where
  table_name : String
  comment : Option String
  schema_name : String
deriving Repr, DecidableEq

/-- A row of the `comment_on_column` metadata table. -/
structure ColumnCommentRow where
  table_name : String
  column_name : String
  comment : Option String
  schema_name : String
deriving Repr, DecidableEq

/-- A row of `information_schema.columns` (the fields the code reads). -/
structure InfoColumnRow where
  table_name : String
  column_name : String
  data_type : String
  ordinal_position : Nat
deriving Repr, DecidableEq

/-- A foreign-key edge as returned by the introspection join over
`table_constraints` / `key_column_usage` / `constraint_column_usage`. -/
structure FKRow where
  from_table : String
  from_column : String
  to_table : String
  to_column : String
deriving Repr, DecidableEq

/-- The metadata and introspection state of the database. -/
structure Database where
  comment_on_table : List TableCommentRow
  comment_on_column : List ColumnCommentRow
  info_columns : List InfoColumnRow
  foreign_keys : List FKRow
deriving Repr

/-- The `WHERE LOWER(t.comment) LIKE ANY(%s) OR LOWER(t.table_name) LIKE
ANY(%s)` predicate; a SQL `NULL` comment satisfies no `LIKE`. -/
def tableRowMatches (patterns : List String) (r : TableCommentRow) : Bool :=
  (match r.comment with
   | some c => likeAny patterns (pyLower c)
   | none => false)
  || likeAny patterns (pyLower r.table_name)

/-- The `WHERE ... AND (LOWER(c.comment) LIKE ANY(%s) OR LOWER(c.column_name)
LIKE ANY(%s))` predicate on column-comment rows. -/
def columnRowMatches (patterns : List String) (c : ColumnCommentRow) : Bool :=
  (match c.comment with
   | some s => likeAny patterns (pyLower s)
   | none => false)
  || likeAny patterns (pyLower c.column_name)

/-- An output row of `DatabaseSchemaAnalyzer.get_relevant_tables`: the selected
columns plus `COUNT(*) OVER (PARTITION BY t.table_name) as relevance_score`. -/
structure RelevantTable where
  table_name : String
  table_comment : Option String
  schema_name : String
  relevance_score : Nat
deriving Repr, DecidableEq

/-- The window function `COUNT(*) OVER (PARTITION BY t.table_name)` evaluated
over the filtered row set: the number of surviving rows sharing the name. -/
def partitionCount (rows : List TableCommentRow) (name : String) : Nat :=
  (rows.filter (fun r => r.table_name == name)).length

/-- Lexicographic text comparison on character lists, the order the database
applies to `ORDER BY` on a text column. -/
def lexLeChars : List Char → List Char → Bool
  | [], _ => true
  | _ :: _, [] => false
  | a :: as, b :: bs =>
      if a.toNat < b.toNat then true
      else if b.toNat < a.toNat then false
      else lexLeChars as bs

/-- Text ordering on strings. -/
def strLe (a b : String) : Bool := lexLeChars a.data b.data

def lexLeChars_total :
    ∀ a b : List Char, lexLeChars a b = true ∨ lexLeChars b a = true
  | [], _ => Or.inl rfl
  | _ :: _, [] => Or.inr rfl
  | a :: as, b :: bs => by
    rcases Nat.lt_trichotomy a.toNat b.toNat with h | h | h
    · exact Or.inl (by simp [lexLeChars, h])
    · have h' : ¬ a.toNat < b.toNat := by omega
      have h'' : ¬ b.toNat < a.toNat := by omega
      rcases lexLeChars_total as bs with ih | ih
      · exact Or.inl (by simp [lexLeChars, h', h'', ih])
      · exact Or.inr (by simp [lexLeChars, h', h'', ih])
    · exact Or.inr (by simp [lexLeChars, h])

def lexLeChars_trans :
    ∀ a b c : List Char, lexLeChars a b = true → lexLeChars b c = true →
      lexLeChars a c = true
  | [], _, _, _, _ => rfl
  | _ :: _, [], _, hab, _ => by cases hab
  | _ :: _, _ :: _, [], _, hbc => by cases hbc
  | a :: as, b :: bs, c :: cs, hab, hbc => by
    simp only [lexLeChars] at hab hbc ⊢
    by_cases h1 : a.toNat < b.toNat
    · rw [if_pos h1] at hab
      by_cases h2 : b.toNat < c.toNat
      · rw [if_pos (show a.toNat < c.toNat by omega)]
      · rw [if_neg h2] at hbc
        by_cases h3 : c.toNat < b.toNat
        · rw [if_pos h3] at hbc; cases hbc
        · rw [if_pos (show a.toNat < c.toNat by omega)]
    · rw [if_neg h1] at hab
      by_cases h1' : b.toNat < a.toNat
      · rw [if_pos h1'] at hab; cases hab
      · rw [if_neg h1'] at hab
        by_cases h2 : b.toNat < c.toNat
        · rw [if_pos (show a.toNat < c.toNat by omega)]
        · rw [if_neg h2] at hbc
          by_cases h3 : c.toNat < b.toNat
          · rw [if_pos h3] at hbc; cases hbc
          · rw [if_neg h3] at hbc
            rw [if_neg (show ¬ a.toNat < c.toNat by omega),
              if_neg (show ¬ c.toNat < a.toNat by omega)]
            exact lexLeChars_trans as bs cs hab hbc

/-- `ORDER BY relevance_score DESC, t.table_name`: `a` sorts no later than `b`
when `a` has the larger score, or equal scores and `a.table_name` not after
`b.table_name`. -/
def tableOrd (a b : RelevantTable) : Prop :=
  b.relevance_score < a.relevance_score ∨
    (a.relevance_score = b.relevance_score ∧
      strLe a.table_name b.table_name = true)

instance : DecidableRel tableOrd := fun a b =>
  inferInstanceAs (Decidable (_ ∨ _ ∧ _))

instance : IsTotal RelevantTable tableOrd where
  total a b := by
    rcases Nat.lt_trichotomy a.relevance_score b.relevance_score with h | h | h
    · exact Or.inr (Or.inl h)
    · rcases lexLeChars_total a.table_name.data b.table_name.data with h' | h'
      · exact Or.inl (Or.inr ⟨h, h'⟩)
      · exact Or.inr (Or.inr ⟨h.symm, h'⟩)
    · exact Or.inl (Or.inl h)

instance : IsTrans RelevantTable tableOrd where
  trans a b c hab hbc := by
    rcases hab with hab | ⟨hab, hab'⟩
    · rcases hbc with hbc | ⟨hbc, _⟩
      · exact Or.inl (hbc.trans hab)
      · exact Or.inl (hbc ▸ hab)
    · rcases hbc with hbc | ⟨hbc, hbc'⟩
      · exact Or.inl (hab ▸ hbc)
      · exact Or.inr ⟨hab.trans hbc, lexLeChars_trans _ _ _ hab' hbc'⟩

/-- `DatabaseSchemaAnalyzer.get_relevant_tables(query, limit)`: filter
`comment_on_table` by the any-pattern predicate, attach the window count as
`relevance_score`, apply `SELECT DISTINCT`, `ORDER BY relevance_score DESC,
table_name`, and `LIMIT`. -/
def get_relevant_tables (db : Database) (query : String) (limit : Nat := 10) :
    List RelevantTable :=
  let patterns := mkPatterns query
  let matched := db.comment_on_table.filter (tableRowMatches patterns)
  let scored := matched.map (fun r =>
    RelevantTable.mk r.table_name r.comment r.schema_name
      (partitionCount matched r.table_name))
  (List.insertionSort tableOrd scored.dedup).take limit

/-- One entry of the per-table column dictionary built by
`DatabaseSchemaAnalyzer.get_relevant_columns` (the fields the formatter
reads). -/
structure ColInfo where
  table_name : String
  column_name : String
  data_type : Option String
  column_comment : Option String
deriving Repr, DecidableEq

/-- `ORDER BY c.table_name, c.column_name` restricted to a single table:
order by column name. -/
def colNameOrd (a b : ColumnCommentRow) : Prop :=
  strLe a.column_name b.column_name = true

instance : DecidableRel colNameOrd := fun a b =>
  inferInstanceAs (Decidable (_ = _))

instance : IsTotal ColumnCommentRow colNameOrd where
  total a b := lexLeChars_total a.column_name.data b.column_name.data

instance : IsTrans ColumnCommentRow colNameOrd where
  trans _ _ _ hab hbc := lexLeChars_trans _ _ _ hab hbc

/-- `ORDER BY ordinal_position` on introspection rows. -/
def ordinalOrd (a b : InfoColumnRow) : Prop :=
  a.ordinal_position ≤ b.ordinal_position

instance : DecidableRel ordinalOrd := fun a b =>
  inferInstanceAs (Decidable (_ ≤ _))

instance : IsTotal InfoColumnRow ordinalOrd where
  total a b := Nat.le_total a.ordinal_position b.ordinal_position

instance : IsTrans InfoColumnRow ordinalOrd where
  trans _ _ _ hab hbc := Nat.le_trans hab hbc

/-- The comment-matched columns of one table: the rows of the analyzer's
column query (`table_name = ANY(table_names) AND (comment or name LIKE ANY)`,
`ORDER BY table_name, column_name`) that fall in this table's group. -/
def matchedColumns (db : Database) (query : String) (table : String) :
    List ColumnCommentRow :=
  List.insertionSort colNameOrd
    (db.comment_on_column.filter (fun c =>
      c.table_name == table && columnRowMatches (mkPatterns query) c))

/-- View a comment-matched row as a dictionary entry. -/
def ColumnCommentRow.toColInfo (c : ColumnCommentRow) : ColInfo :=
  ⟨c.table_name, c.column_name, none, c.comment⟩

/-- The introspection fallback rows for one table:
`information_schema.columns WHERE table_name = %s ORDER BY ordinal_position
LIMIT 20`. -/
def basicColumns (db : Database) (table : String) : List InfoColumnRow :=
  (List.insertionSort ordinalOrd
    (db.info_columns.filter (fun c => c.table_name == table))).take 20

/-- The supplement loop of `get_relevant_columns`: append each introspection
column whose name is not already present in the accumulated list. -/
def supplementColumns (table : String) (existing : List ColInfo)
    (basic : List InfoColumnRow) : List ColInfo :=
  basic.foldl (fun acc col =>
    if acc.any (fun c => c.column_name == col.column_name) then acc
    else acc ++ [⟨table, col.column_name, some col.data_type, none⟩]) existing

/-- The per-table result of `DatabaseSchemaAnalyzer.get_relevant_columns`:
comment-matched columns, supplemented from introspection when the table is
absent from the dictionary or has fewer than 3 matches. -/
def analyzer_columns_for (db : Database) (query : String)
    (table_names : List String) (table : String) : List ColInfo :=
  if table ∈ table_names then
    let matched := (matchedColumns db query table).map ColumnCommentRow.toColInfo
    if matched.length < 3 then
      supplementColumns table matched (basicColumns db table)
    else matched
  else []

/-- Python truthiness of an optional string field (`if row.get(k):`): `None`
and the empty string are falsy. -/
def pyTruthy : Option String → Bool
  | some s => !s.data.isEmpty
  | none => false

/-- `DatabaseSchemaAnalyzer.get_table_relationships`: foreign-key edges with
either endpoint's table in the candidate set; empty input short-circuits. -/
def get_table_relationships (db : Database) (table_names : List String) :
    List FKRow :=
  if table_names = [] then []
  else db.foreign_keys.filter (fun r =>
    table_names.contains r.from_table || table_names.contains r.to_table)

/-- One column bullet of the analyzer's context
(`    - name` optionally suffixed with `: comment`). -/
def renderColInfo (col : ColInfo) : String :=
  "    - " ++ col.column_name ++
    (if pyTruthy col.column_comment then ": " ++ col.column_comment.getD ""
     else "") ++ "\n"

/-- One relationship line of a context block. -/
def renderFK (r : FKRow) : String :=
  "  - " ++ r.from_table ++ "." ++ r.from_column ++ " -> " ++
    r.to_table ++ "." ++ r.to_column ++ "\n"

/-- The columns the analyzer's formatter renders for one candidate table:
`columns_by_table[table_name][:15]`. -/
def analyzer_rendered_columns (db : Database) (query : String)
    (table_names : List String) (table : String) : List ColInfo :=
  (analyzer_columns_for db query table_names table).take 15

/-- One table block of `get_optimized_schema_context`.  Every candidate table
is a key of the column dictionary (the supplement pass inserts missing keys),
so the `Columns:` header is always emitted. -/
def analyzer_render_table (db : Database) (query : String)
    (table_names : List String) (t : RelevantTable) : String :=
  "Table: " ++ t.table_name ++ "\n" ++
    (if pyTruthy t.table_comment then
      "  Description: " ++ t.table_comment.getD "" ++ "\n"
     else "") ++
    "  Columns:\n" ++
    String.join ((analyzer_rendered_columns db query table_names
      t.table_name).map renderColInfo) ++ "\n"

/-- `DatabaseSchemaAnalyzer.get_optimized_schema_context(query)`. -/
def get_optimized_schema_context (db : Database) (query : String) : String :=
  let rel := get_relevant_tables db query 10
  if rel = [] then "No relevant tables found for the query."
  else
    let tnames := rel.map (fun t => t.table_name)
    let rels := get_table_relationships db tnames
    "Database Schema Context:\n\n" ++
      String.join (rel.map (analyzer_render_table db query tnames)) ++
      (if rels = [] then ""
       else "Relationships:\n" ++ String.join ((rels.take 10).map renderFK))

/-- The candidate tables of `MinimalSQLAgent.get_relevant_schema`: the
`SELECT DISTINCT` keyword match — whose `LIMIT` clause is commented out in
the source — and, when it is empty, the fallback scan of all of
`comment_on_table` (its `LIMIT 5` is commented out as well). -/
def minimal_relevant_tables (db : Database) (query : String) :
    List TableCommentRow :=
  let matched :=
    (db.comment_on_table.filter (tableRowMatches (mkPatterns query))).dedup
  if matched = [] then db.comment_on_table else matched

/-- The columns `MinimalSQLAgent.get_relevant_schema` renders for one table:
all of the table's `comment_on_column` rows — no keyword filter, and the
`LIMIT 15` is commented out in the source. -/
def minimal_columns_for (db : Database) (table : String) :
    List ColumnCommentRow :=
  db.comment_on_column.filter (fun c => c.table_name == table)

/-- One column bullet of the minimal agent's context. -/
def renderCommentCol (c : ColumnCommentRow) : String :=
  "    - " ++ c.column_name ++
    (if pyTruthy c.comment then ": " ++ c.comment.getD "" else "") ++ "\n"

/-- One table block of the minimal agent's context. -/
def minimal_render_table (db : Database) (t : TableCommentRow) : String :=
  let cols := minimal_columns_for db t.table_name
  "Table: " ++ t.schema_name ++ "." ++ t.table_name ++ "\n" ++
    (if pyTruthy t.comment then "  Description: " ++ t.comment.getD "" ++ "\n"
     else "") ++
    (if cols = [] then ""
     else "  Columns:\n" ++ String.join (cols.map renderCommentCol)) ++ "\n"

/-- `MinimalSQLAgent.get_relevant_schema(query)`. -/
def minimal_get_relevant_schema (db : Database) (query : String) : String :=
  "Database Schema:\n\n" ++
    String.join ((minimal_relevant_tables db query).map
      (minimal_render_table db))

/-- The comment-matched columns of one table in
`SimpleSQLAgent.get_relevant_schema`: keyword filter with `LIMIT 15` and no
`ORDER BY`. -/
def simple_matched_columns (db : Database) (query : String) (table : String) :
    List ColumnCommentRow :=
  (db.comment_on_column.filter (fun c =>
    c.table_name == table && columnRowMatches (mkPatterns query) c)).take 15

/-- The columns `SimpleSQLAgent.get_relevant_schema` renders for one table:
the keyword match, replaced by the first 15 introspection columns in ordinal
order only when the keyword match is empty. -/
def simple_columns_for (db : Database) (query : String) (table : String) :
    List ColInfo :=
  let matched := simple_matched_columns db query table
  if matched = [] then
    ((List.insertionSort ordinalOrd
        (db.info_columns.filter (fun c => c.table_name == table))).take 15).map
      (fun c => ⟨table, c.column_name, some c.data_type, none⟩)
  else matched.map ColumnCommentRow.toColInfo

/-- A materialized query result as produced by `pd.read_sql_query`. -/
structure DataFrame where
  columns : List String
  rows : List (List String)
deriving Repr, DecidableEq

/-- `df.to_dict('records')`: one column-name/value record per row. -/
def DataFrame.toRecords (df : DataFrame) : List (List (String × String)) :=
  df.rows.map (fun r => df.columns.zip r)

/-- The body of an HTTP response from the completion endpoint, as seen by the
extraction code `result['choices'][0]['message']['content']`: either the
expected shape with its content string, or a malformed body whose extraction
raises an exception carrying a message. -/
inductive LLMBody
  | wellFormed (content : String)
  | malformed (exnMessage : String)
deriving Repr, DecidableEq

/-- The outcome of one `requests.post` call: a transport-level exception or a
response with a status code, raw text, and a body. -/
inductive HttpOutcome
  | transportError (exnMessage : String)
  | response (status : Nat) (text : String) (body : LLMBody)
deriving Repr, DecidableEq

/-- The external collaborators of an agent instance: the metadata tables, the
live SQL executor reached through the one connection (an error outcome models
a raised database exception), and the completion endpoint indexed by attempt
number — the source contains a single non-looping call, which consults
attempt 0. -/
structure World where
  meta : Database
  runSql : String → Except String DataFrame
  llm : Nat → String → HttpOutcome

/-- The attribute state of a `MinimalSQLAgent` instance after `__init__`:
the API key, the schema name, and the connection handle.  No method of the
class assigns to any attribute. -/
structure AgentState where
  api_key : String
  db_schema : String
  conn : Nat
deriving Repr, DecidableEq

/-- Result dictionary of `generate_sql`. -/
structure GenResult where
  success : Bool
  query : Option String
  schema_context : Option String
  error : Option String
deriving Repr, DecidableEq

/-- Result dictionary of `execute_query`. -/
structure ExecResult where
  success : Bool
  data : Option (List (List (String × String)))
  columns : Option (List String)
  row_count : Option Nat
  error : Option String
deriving Repr, DecidableEq

/-- Result dictionary of `validate_sql`. -/
structure ValidateResult where
  valid : Bool
  message : String
deriving Repr, DecidableEq

/-- Python `s[:n]`: the first `n` characters. -/
def pySlice (s : String) (n : Nat) : String := ⟨s.data.take n⟩

/-- Python `str.strip()` with no argument: remove leading and trailing
whitespace. -/
def pyStrip (s : String) : String :=
  ⟨((s.data.dropWhile Char.isWhitespace).reverse.dropWhile
      Char.isWhitespace).reverse⟩

/-- Left-to-right scan behind `pyReplace`: when the skip counter is positive,
the character belongs to an occurrence already replaced and is dropped. -/
def replaceScan (pat rep : List Char) : List Char → Nat → List Char
  | [], _ => []
  | _ :: cs, k + 1 => replaceScan pat rep cs k
  | c :: cs, 0 =>
      if pat.isPrefixOf (c :: cs) then
        rep ++ replaceScan pat rep cs (pat.length - 1)
      else c :: replaceScan pat rep cs 0

/-- Python `s.replace(pat, rep)` for a non-empty `pat`: replace every
non-overlapping occurrence, scanning left to right (the only uses in the
source have non-empty patterns; an empty pattern is returned unchanged to
keep the model total). -/
def pyReplace (s pat rep : String) : String :=
  if pat.data = [] then s else ⟨replaceScan pat.data rep.data s.data 0⟩

/-- The markdown cleanup applied to the LLM response text:
`content.strip()`, then `.replace('```sql', '').replace('```', '')`, then
`.strip()`. -/
def cleanSql (content : String) : String :=
  pyStrip (pyReplace (pyReplace (pyStrip content) "```sql" "") "```" "")

/-- The prompt template of `MinimalSQLAgent.generate_sql`, embedding the
question and the schema context verbatim. -/
def mkPrompt (question ctx : String) : String :=
  "You are a PostgreSQL expert. Generate a SQL query based on the " ++
  "user's question and the provided database schema.\n\nUser Question: " ++
  question ++ "\n\n" ++ ctx ++
  "\n\nInstructions: ...\n\nReturn ONLY the SQL query without any " ++
  "markdown formatting or explanations."

/-- `MinimalSQLAgent.generate_sql(user_query)`: build the schema context and
the prompt, call the endpoint once, and map the outcome; every failure path
is caught and returned as a tagged failure with `query = None`.  The method
assigns no attribute, so the agent state is returned unchanged. -/
def generate_sql (w : World) (s : AgentState) (user_query : String) :
    GenResult × AgentState :=
  let ctx := minimal_get_relevant_schema w.meta user_query
  let prompt := mkPrompt user_query ctx
  match w.llm 0 prompt with
  | .transportError msg => (⟨false, none, none, some msg⟩, s)
  | .response status text body =>
    if status == 200 then
      match body with
      | .wellFormed content =>
          (⟨true, some (cleanSql content), some (pySlice ctx 500), none⟩, s)
      | .malformed msg => (⟨false, none, none, some msg⟩, s)
    else
      (⟨false, none, none,
        some ("OpenAI API error: " ++ toString status ++ " - " ++ text)⟩, s)

/-- `MinimalSQLAgent.execute_query(sql_query)`: run the statement, materialize
every row, and convert; any raised database error is caught and mapped to a
failure dictionary with `data = None`. -/
def execute_query (w : World) (s : AgentState) (sql_query : String) :
    ExecResult × AgentState :=
  match w.runSql sql_query with
  | .ok df =>
      (⟨true, some df.toRecords, some df.columns, some df.rows.length, none⟩, s)
  | .error e => (⟨false, none, none, none, some e⟩, s)

/-- `MinimalSQLAgent.validate_sql(sql_query)`: run `EXPLAIN` on the statement;
any raised error marks the query invalid with the error text as message. -/
def validate_sql (w : World) (s : AgentState) (sql_query : String) :
    ValidateResult × AgentState :=
  match w.runSql ("EXPLAIN " ++ sql_query) with
  | .ok _ => (⟨true, "Query is valid"⟩, s)
  | .error e => (⟨false, e⟩, s)

/-- One public call on the agent. -/
inductive AgentCall
  | gen (question : String)
  | exec (sql : String)
  | validate (sql : String)
deriving Repr, DecidableEq

/-- The result of one public call. -/
inductive AgentCallResult
  | gen (r : GenResult)
  | exec (r : ExecResult)
  | validate (r : ValidateResult)
deriving Repr, DecidableEq

/-- Dispatch one call against the agent. -/
def applyCall (w : World) (s : AgentState) :
    AgentCall → AgentCallResult × AgentState
  | .gen q => (.gen (generate_sql w s q).1, (generate_sql w s q).2)
  | .exec sql => (.exec (execute_query w s sql).1, (execute_query w s sql).2)
  | .validate sql =>
      (.validate (validate_sql w s sql).1, (validate_sql w s sql).2)

/-- The agent state after a sequence of calls. -/
def runCalls (w : World) (s : AgentState) : List AgentCall → AgentState
  | [] => s
  | c :: cs => runCalls w (applyCall w s c).2 cs

/-- Modelled from the spec's words, for comparison with the code's window
count: a score "equal to the number of matching tokens" — the count of search
tokens whose wildcard pattern matches the row's lowercased comment or
lowercased table name. -/
def specTokenMatchCount (q : String) (r : TableCommentRow) : Nat :=
  ((searchTerms q).filter (fun tok =>
    (match r.comment with
     | some c => strLike ("%" ++ tok ++ "%") (pyLower c)
     | none => false)
    || strLike ("%" ++ tok ++ "%") (pyLower r.table_name))).length

/-! ### Concrete database and collaborator states used as test inputs -/

/-- Eleven commented tables all matching the keyword `data`, the first of
which has sixteen commented columns. -/
def dbElevenTables : Database :=
  { comment_on_table :=
      [⟨"t01", some "data one", "public"⟩, ⟨"t02", some "data two", "public"⟩,
       ⟨"t03", some "data three", "public"⟩,
       ⟨"t04", some "data four", "public"⟩,
       ⟨"t05", some "data five", "public"⟩, ⟨"t06", some "data six", "public"⟩,
       ⟨"t07", some "data seven", "public"⟩,
       ⟨"t08", some "data eight", "public"⟩,
       ⟨"t09", some "data nine", "public"⟩, ⟨"t10", some "data ten", "public"⟩,
       ⟨"t11", some "data eleven", "public"⟩],
    comment_on_column :=
      [⟨"t01", "c01", none, "public"⟩, ⟨"t01", "c02", none, "public"⟩,
       ⟨"t01", "c03", none, "public"⟩, ⟨"t01", "c04", none, "public"⟩,
       ⟨"t01", "c05", none, "public"⟩, ⟨"t01", "c06", none, "public"⟩,
       ⟨"t01", "c07", none, "public"⟩, ⟨"t01", "c08", none, "public"⟩,
       ⟨"t01", "c09", none, "public"⟩, ⟨"t01", "c10", none, "public"⟩,
       ⟨"t01", "c11", none, "public"⟩, ⟨"t01", "c12", none, "public"⟩,
       ⟨"t01", "c13", none, "public"⟩, ⟨"t01", "c14", none, "public"⟩,
       ⟨"t01", "c15", none, "public"⟩, ⟨"t01", "c16", none, "public"⟩],
    info_columns := [],
    foreign_keys := [] }

/-- A single commented table, for exercising the zero-match paths. -/
def dbOneTable : Database :=
  { comment_on_table := [⟨"country", some "list of countries", "public"⟩],
    comment_on_column := [],
    info_columns := [],
    foreign_keys := [] }

/-- A `sales` table with two commented columns and three introspection
columns, for exercising the sparse-column supplement paths. -/
def dbSales : Database :=
  { comment_on_table := [⟨"sales", some "sales facts", "public"⟩],
    comment_on_column :=
      [⟨"sales", "amount", some "total sales amount", "public"⟩,
       ⟨"sales", "region", some "geographic region", "public"⟩],
    info_columns :=
      [⟨"sales", "id", "integer", 1⟩, ⟨"sales", "amount", "numeric", 2⟩,
       ⟨"sales", "region", "text", 3⟩],
    foreign_keys := [] }

/-- One table whose name matches two distinct one-letter search tokens. -/
def dbScorePair : Database :=
  { comment_on_table := [⟨"ab", some "ab", "public"⟩],
    comment_on_column := [],
    info_columns := [],
    foreign_keys := [] }

/-- An empty metadata database. -/
def emptyDb : Database := ⟨[], [], [], []⟩

/-- A post-`__init__` agent state. -/
def agent0 : AgentState := ⟨"sk-test", "public", 0⟩

/-- A one-row result frame. -/
def dfOneRow : DataFrame := ⟨["count"], [["42"]]⟩

/-- A zero-row result frame with one column. -/
def dfNoRows : DataFrame := ⟨["id"], []⟩

/-- A database that raises `division by zero` on every statement. -/
def wDivZero : World :=
  ⟨emptyDb, fun _ => .error "division by zero",
    fun _ _ => .transportError "unused"⟩

/-- A database returning one row for every statement. -/
def wOneRow : World :=
  ⟨emptyDb, fun _ => .ok dfOneRow, fun _ _ => .transportError "unused"⟩

/-- A database returning zero rows for every statement. -/
def wNoRows : World :=
  ⟨emptyDb, fun _ => .ok dfNoRows, fun _ _ => .transportError "unused"⟩

/-- An LLM endpoint answering 200 with a fenced SQL block. -/
def wLlmOk : World :=
  ⟨emptyDb, fun _ => .error "no db",
    fun _ _ => .response 200 "raw"
      (.wellFormed "```sql\nSELECT count(*) FROM country;\n```")⟩

/-- An LLM endpoint that is unreachable. -/
def wLlmDown : World :=
  ⟨emptyDb, fun _ => .error "no db",
    fun _ _ => .transportError "connection refused"⟩

/-- An LLM endpoint answering a non-success status. -/
def wLlmHttp500 : World :=
  ⟨emptyDb, fun _ => .error "no db",
    fun _ _ => .response 500 "server error" (.malformed "KeyError: choices")⟩

/-- An LLM endpoint answering 200 with a body the extraction cannot parse. -/
def wLlmMalformed : World :=
  ⟨emptyDb, fun _ => .error "no db",
    fun _ _ => .response 200 "{}" (.malformed "KeyError: choices")⟩

/-! ### Properties of the `LIKE` matcher -/

theorem likeMatch_percent_one (s : List Char) : likeMatch ['%'] s = true := by
  simp only [likeMatch, if_pos rfl, if_true, List.any_eq_true, List.mem_range]
  exact ⟨s.length, by omega, by simp [List.drop_length]⟩

theorem likeMatch_lit_append :
    ∀ (tok : List Char), (∀ c ∈ tok, c ≠ '%' ∧ c ≠ '_') → ∀ (ps s : List Char),
      (likeMatch (tok ++ ps) s = true ↔
        ∃ s', s = tok ++ s' ∧ likeMatch ps s' = true)
  | [], _, ps, s => by simp
  | c :: tok, htok, ps, s => by
    have hc := htok c (List.mem_cons_self _ _)
    have htok' : ∀ d ∈ tok, d ≠ '%' ∧ d ≠ '_' :=
      fun d hd => htok d (List.mem_cons_of_mem _ hd)
    cases s with
    | nil =>
      rw [List.cons_append]
      simp only [likeMatch, if_neg hc.1]
      simp
    | cons a s' =>
      rw [List.cons_append]
      simp only [likeMatch, if_neg hc.1, if_neg hc.2, Bool.and_eq_true,
        beq_iff_eq]
      rw [likeMatch_lit_append tok htok' ps s']
      constructor
      · rintro ⟨rfl, s'', rfl, h⟩
        exact ⟨s'', rfl, h⟩
      · rintro ⟨s'', h, hps⟩
        injection h with h1 h2
        exact ⟨h1.symm, s'', h2, hps⟩

theorem likeMatch_percent_cons (ps s : List Char) :
    (likeMatch ('%' :: ps) s = true ↔ ∃ n, likeMatch ps (s.drop n) = true) := by
  simp only [likeMatch, if_pos rfl, if_true, List.any_eq_true,
    List.mem_range]
  constructor
  · rintro ⟨n, _, h⟩
    exact ⟨n, h⟩
  · rintro ⟨n, h⟩
    by_cases hn : n < s.length + 1
    · exact ⟨n, hn, h⟩
    · refine ⟨s.length, by omega, ?_⟩
      rw [List.drop_length]
      rwa [List.drop_eq_nil_of_le (by omega)] at h

theorem infix_iff_exists_drop (tok s : List Char) :
    tok <:+: s ↔ ∃ n s', s.drop n = tok ++ s' := by
  constructor
  · rintro ⟨pre, post, rfl⟩
    exact ⟨pre.length, post, by rw [List.append_assoc, List.drop_left]⟩
  · rintro ⟨n, s', h⟩
    exact ⟨s.take n, s', by rw [List.append_assoc, ← h, List.take_append_drop]⟩

/-- A `'%' + tok + '%'` wildcard pattern whose core contains no `LIKE`
metacharacter matches exactly the strings having `tok` as a contiguous
substring. -/
theorem strLike_wildcard_iff (tok : String)
    (htok : ∀ c ∈ tok.data, c ≠ '%' ∧ c ≠ '_') (s : String) :
    (strLike ("%" ++ tok ++ "%") s = true ↔ tok.data <:+: s.data) := by
  have hdata : ("%" ++ tok ++ "%").data = '%' :: (tok.data ++ ['%']) := by
    simp [String.data_append]
  rw [strLike, hdata, likeMatch_percent_cons]
  constructor
  · rintro ⟨n, h⟩
    rw [likeMatch_lit_append tok.data htok] at h
    obtain ⟨s', hs', _⟩ := h
    exact (infix_iff_exists_drop _ _).mpr ⟨n, s', hs'⟩
  · intro h
    obtain ⟨n, s', hs'⟩ := (infix_iff_exists_drop _ _).mp h
    refine ⟨n, ?_⟩
    rw [likeMatch_lit_append tok.data htok]
    exact ⟨s', hs', likeMatch_percent_one s'⟩

/-- `LIKE ANY` over the built patterns is the any-token substring test. -/
theorem likeAny_mkPatterns (q : String)
    (hq : ∀ tok ∈ searchTerms q, ∀ c ∈ tok.data, c ≠ '%' ∧ c ≠ '_')
    (s : String) :
    (likeAny (mkPatterns q) s = true ↔
      ∃ tok ∈ searchTerms q, tok.data <:+: s.data) := by
  rw [likeAny, mkPatterns, List.any_map, List.any_eq_true]
  constructor
  · rintro ⟨tok, hm, h⟩
    exact ⟨tok, hm, (strLike_wildcard_iff tok (hq tok hm) s).mp h⟩
  · rintro ⟨tok, hm, h⟩
    exact ⟨tok, hm, (strLike_wildcard_iff tok (hq tok hm) s).mpr h⟩

/-! ### Structure of the column supplement loop -/

/-- The supplement loop appends a block of new columns after the existing
ones; the appended names form a subsequence of the introspection names (so
ordinal order is preserved), none of them repeats an existing name, and
name-uniqueness of the accumulator is preserved. -/
theorem supplementColumns_structure (t : String) :
    ∀ (basic : List InfoColumnRow) (existing : List ColInfo),
      ∃ rest,
        supplementColumns t existing basic = existing ++ rest ∧
        List.Sublist (rest.map (fun c => c.column_name))
          (basic.map (fun c => c.column_name)) ∧
        (∀ r ∈ rest,
          r.column_name ∉ existing.map (fun c => c.column_name)) ∧
        ((existing.map (fun c => c.column_name)).Nodup →
          ((existing ++ rest).map (fun c => c.column_name)).Nodup)
  | [], existing => ⟨[], by simp [supplementColumns]⟩
  | col :: basic, existing => by
    cases hmem : existing.any (fun c => c.column_name == col.column_name) with
    | true =>
      have hfold : supplementColumns t existing (col :: basic) =
          supplementColumns t
            (if existing.any (fun c => c.column_name == col.column_name)
             then existing
             else existing ++
               [⟨t, col.column_name, some col.data_type, none⟩]) basic := rfl
      rw [hfold, if_pos hmem]
      obtain ⟨rest, h1, h2, h3, h4⟩ := supplementColumns_structure t basic
        existing
      exact ⟨rest, h1, h2.cons _, h3, h4⟩
    | false =>
      have hfold : supplementColumns t existing (col :: basic) =
          supplementColumns t
            (if existing.any (fun c => c.column_name == col.column_name)
             then existing
             else existing ++
               [⟨t, col.column_name, some col.data_type, none⟩]) basic := rfl
      have hnotin : col.column_name ∉
          existing.map (fun c => c.column_name) := by
        simp only [List.any_eq_false, beq_iff_eq] at hmem
        intro hmm
        obtain ⟨c, hc, hcn⟩ := List.mem_map.mp hmm
        exact hmem c hc hcn
      rw [hfold, hmem, if_neg Bool.false_ne_true]
      obtain ⟨rest, h1, h2, h3, h4⟩ := supplementColumns_structure t basic
        (existing ++ [⟨t, col.column_name, some col.data_type, none⟩])
      refine ⟨⟨t, col.column_name, some col.data_type, none⟩ :: rest, ?_, ?_,
        ?_, ?_⟩
      · rw [h1, List.append_assoc, List.singleton_append]
      · exact List.Sublist.cons₂ _ h2
      · intro r hr
        rcases List.mem_cons.mp hr with rfl | hr'
        · exact hnotin
        · intro hmm
          exact h3 r hr' (by rw [List.map_append]; exact
            List.mem_append_left _ hmm)
      · intro hnd
        rw [← List.singleton_append, ← List.append_assoc]
        apply h4
        rw [List.map_append]
        refine List.Nodup.append hnd (List.nodup_singleton _) ?_
        intro a ha hb
        rcases List.mem_singleton.mp hb with rfl
        exact hnotin ha

/-- Every introspection column name reaches the supplemented list. -/
theorem supplementColumns_covers (t : String) :
    ∀ (basic : List InfoColumnRow) (existing : List ColInfo) (b : InfoColumnRow),
      b ∈ basic →
      b.column_name ∈
        (supplementColumns t existing basic).map (fun c => c.column_name)
  | col :: basic, existing, b, hb => by
    cases hmem : existing.any (fun c => c.column_name == col.column_name) with
    | true =>
      have hfold : supplementColumns t existing (col :: basic) =
          supplementColumns t
            (if existing.any (fun c => c.column_name == col.column_name)
             then existing
             else existing ++
               [⟨t, col.column_name, some col.data_type, none⟩]) basic := rfl
      rw [hfold, if_pos hmem]
      rcases List.mem_cons.mp hb with rfl | hb'
      · simp only [List.any_eq_true, beq_iff_eq] at hmem
        obtain ⟨c, hc, hcn⟩ := hmem
        obtain ⟨rest, h1, _, _, _⟩ := supplementColumns_structure t basic
          existing
        rw [h1, List.map_append]
        exact List.mem_append_left _ (hcn ▸ List.mem_map_of_mem _ hc)
      · exact supplementColumns_covers t basic existing b hb'
    | false =>
      have hfold : supplementColumns t existing (col :: basic) =
          supplementColumns t
            (if existing.any (fun c => c.column_name == col.column_name)
             then existing
             else existing ++
               [⟨t, col.column_name, some col.data_type, none⟩]) basic := rfl
      rw [hfold, hmem, if_neg Bool.false_ne_true]
      rcases List.mem_cons.mp hb with rfl | hb'
      · obtain ⟨rest, h1, _, _, _⟩ := supplementColumns_structure t basic
          (existing ++ [⟨t, b.column_name, some b.data_type, none⟩])
        rw [h1, List.map_append]
        refine List.mem_append_left _ ?_
        rw [List.map_append]
        exact List.mem_append_right _ (by simp)
      · exact supplementColumns_covers t basic _ b hb'

/-! ### Claim theorems -/

/-- **C5** (confirmed).  The Relevance Selector splits the question on
whitespace after lowercasing it, builds exactly one `%token%` wildcard
pattern per token — no stemming, no stop-word removal, no minimum length —
and a table row qualifies as a candidate whenever any single pattern matches
its lowercased comment or lowercased table name; for tokens free of `LIKE`
metacharacters this is exactly substring containment. -/
theorem keyword_matching_any_token (q : String) (r : TableCommentRow)
    (hq : ∀ tok ∈ searchTerms q, ∀ c ∈ tok.data, c ≠ '%' ∧ c ≠ '_') :
    searchTerms q = pySplitWs (pyLower q) ∧
    mkPatterns q = (searchTerms q).map (fun t => "%" ++ t ++ "%") ∧
    (tableRowMatches (mkPatterns q) r = true ↔
      ∃ tok ∈ searchTerms q,
        (∃ c, r.comment = some c ∧ tok.data <:+: (pyLower c).data) ∨
        tok.data <:+: (pyLower r.table_name).data) := by
  refine ⟨rfl, rfl, ?_⟩
  have hname := likeAny_mkPatterns q hq (pyLower r.table_name)
  cases hc : r.comment with
  | none =>
      simp only [tableRowMatches, hc, Bool.false_or]
      rw [hname]
      constructor
      · rintro ⟨tok, hm, h⟩
        exact ⟨tok, hm, Or.inr h⟩
      · rintro ⟨tok, hm, ⟨c, hcc, _⟩ | h⟩
        · cases hcc
        · exact ⟨tok, hm, h⟩
  | some c =>
      have hcom := likeAny_mkPatterns q hq (pyLower c)
      simp only [tableRowMatches, hc, Bool.or_eq_true]
      rw [hname, hcom]
      constructor
      · rintro (⟨tok, hm, h⟩ | ⟨tok, hm, h⟩)
        · exact ⟨tok, hm, Or.inl ⟨c, rfl, h⟩⟩
        · exact ⟨tok, hm, Or.inr h⟩
      · rintro ⟨tok, hm, ⟨c', hcc, h⟩ | h⟩
        · cases hcc
          exact Or.inl ⟨tok, hm, h⟩
        · exact Or.inr ⟨tok, hm, h⟩

/-- Witness for C5: the question `how many catchment areas` against the
commented `catchment` table. -/
theorem keyword_matching_any_token_witness :
    (∀ tok ∈ searchTerms "how many catchment areas",
      ∀ c ∈ tok.data, c ≠ '%' ∧ c ≠ '_') ∧
    (tableRowMatches (mkPatterns "how many catchment areas")
        ⟨"catchment", some "catchment boundaries by country", "public"⟩ =
          true ↔
      ∃ tok ∈ searchTerms "how many catchment areas",
        (∃ c, (⟨"catchment", some "catchment boundaries by country",
            "public"⟩ : TableCommentRow).comment = some c ∧
          tok.data <:+: (pyLower c).data) ∨
        tok.data <:+:
          (pyLower (⟨"catchment", some "catchment boundaries by country",
            "public"⟩ : TableCommentRow).table_name).data) :=
  ⟨by decide,
    (keyword_matching_any_token "how many catchment areas"
      ⟨"catchment", some "catchment boundaries by country", "public"⟩
      (by decide)).2.2⟩

/-- **C1** (amended).  The caps hold for `DatabaseSchemaAnalyzer`: its
`get_relevant_tables` returns at most 10 candidate tables and its context
formatter renders at most 15 columns per candidate table.
(`MinimalSQLAgent.get_relevant_schema` applies no such caps — its `LIMIT`
clauses are commented out; see the counterexample.) -/
theorem analyzer_context_caps (db : Database) (query : String)
    (table_names : List String) (table : String) :
    (get_relevant_tables db query 10).length ≤ 10 ∧
    (analyzer_rendered_columns db query table_names table).length ≤ 15 := by
  constructor
  · simp only [get_relevant_tables, List.length_take]
    omega
  · simp only [analyzer_rendered_columns, List.length_take]
    omega

/-- Counterexample to **C1** as stated: the schema context built by
`MinimalSQLAgent.get_relevant_schema` (the Relevance Selector the
application runs) holds 11 candidate tables and renders 16 columns for
table `t01` on this database. -/
theorem minimal_context_uncapped :
    (minimal_relevant_tables dbElevenTables "data").length = 11 ∧
    10 < (minimal_relevant_tables dbElevenTables "data").length ∧
    (minimal_columns_for dbElevenTables "t01").length = 16 ∧
    15 < (minimal_columns_for dbElevenTables "t01").length := by
  refine ⟨by decide, by decide, by decide, by decide⟩

/-- **C2** (amended).  `MinimalSQLAgent.get_relevant_schema` never returns an
empty table list when any commented table exists: on zero keyword matches it
falls back to a scan of all commented tables.
(`DatabaseSchemaAnalyzer.get_optimized_schema_context` has no such fallback;
see the counterexample.) -/
theorem minimal_fallback_nonempty (db : Database) (query : String)
    (h : db.comment_on_table ≠ []) :
    minimal_relevant_tables db query ≠ [] := by
  show (if (db.comment_on_table.filter
          (tableRowMatches (mkPatterns query))).dedup = []
        then db.comment_on_table
        else (db.comment_on_table.filter
          (tableRowMatches (mkPatterns query))).dedup) ≠ []
  split
  · exact h
  · rename_i hne
    exact hne

/-- Witness for C2's amended theorem: one commented table, a question with no
matching token. -/
theorem minimal_fallback_nonempty_witness :
    dbOneTable.comment_on_table ≠ [] ∧
    minimal_relevant_tables dbOneTable "zzz" ≠ [] :=
  ⟨by decide, minimal_fallback_nonempty dbOneTable "zzz" (by decide)⟩

/-- Counterexample to **C2** as stated: the analyzer-backed Relevance Selector
returns an empty candidate list (and the fixed no-tables message) for a
question with zero keyword matches even though a commented table exists. -/
theorem analyzer_no_fallback :
    dbOneTable.comment_on_table ≠ [] ∧
    get_relevant_tables dbOneTable "zzz" 10 = [] ∧
    get_optimized_schema_context dbOneTable "zzz" =
      "No relevant tables found for the query." := by
  refine ⟨by decide, by decide, by decide⟩

/-- **C4** (amended).  `get_relevant_tables` orders candidates by
`relevance_score` descending with ties broken by table name ascending, and
the order is deterministic (the model is a pure function of the question);
but the score is the window count of matching comment rows sharing the table
name — not the number of matching tokens (see the counterexample). -/
theorem relevant_tables_score_sorted (db : Database) (query : String)
    (limit : Nat) (r : RelevantTable)
    (hr : r ∈ get_relevant_tables db query limit) :
    r.relevance_score =
      partitionCount
        (db.comment_on_table.filter (tableRowMatches (mkPatterns query)))
        r.table_name ∧
    List.Sorted tableOrd (get_relevant_tables db query limit) := by
  constructor
  · have hr1 : r ∈ (List.insertionSort tableOrd
        ((db.comment_on_table.filter
            (tableRowMatches (mkPatterns query))).map
          (fun row => RelevantTable.mk row.table_name row.comment
            row.schema_name
            (partitionCount (db.comment_on_table.filter
              (tableRowMatches (mkPatterns query)))
              row.table_name))).dedup).take limit := hr
    have hr2 := List.mem_of_mem_take hr1
    have hr3 := (List.perm_insertionSort tableOrd _).mem_iff.mp hr2
    have hr4 := List.mem_dedup.mp hr3
    obtain ⟨row, _, heq⟩ := List.mem_map.mp hr4
    cases heq
    rfl
  · have hs := List.sorted_insertionSort tableOrd
      ((db.comment_on_table.filter (tableRowMatches (mkPatterns query))).map
        (fun row => RelevantTable.mk row.table_name row.comment
          row.schema_name
          (partitionCount (db.comment_on_table.filter
            (tableRowMatches (mkPatterns query))) row.table_name))).dedup
    exact List.Pairwise.sublist (List.take_sublist _ _) hs

/-- Witness for C4's amended theorem at a one-table database. -/
theorem relevant_tables_score_sorted_witness :
    ((⟨"country", some "list of countries", "public", 1⟩ : RelevantTable) ∈
      get_relevant_tables dbOneTable "country list" 10) ∧
    ((⟨"country", some "list of countries", "public", 1⟩ :
        RelevantTable).relevance_score =
      partitionCount
        (dbOneTable.comment_on_table.filter
          (tableRowMatches (mkPatterns "country list")))
        (⟨"country", some "list of countries", "public", 1⟩ :
          RelevantTable).table_name ∧
      List.Sorted tableOrd (get_relevant_tables dbOneTable "country list" 10)) :=
  ⟨by decide,
    relevant_tables_score_sorted dbOneTable "country list" 10
      ⟨"country", some "list of countries", "public", 1⟩ (by decide)⟩

/-- Counterexample to **C4** as stated: for the question `a b` both tokens
match table `ab`, so a match-token score would be 2, but the code's
relevance score is the per-name row count, namely 1. -/
theorem relevance_score_not_token_count :
    get_relevant_tables dbScorePair "a b" 10 =
      [⟨"ab", some "ab", "public", 1⟩] ∧
    specTokenMatchCount "a b" ⟨"ab", some "ab", "public"⟩ = 2 := by
  refine ⟨by decide, by decide⟩

/-- **C3** (amended).  In `DatabaseSchemaAnalyzer.get_relevant_columns`, a
candidate table whose any-token comment match yields fewer than 3 columns is
supplemented from the introspection view: every name among the first 20
introspection columns (ordinal order) appears in the final list, the
appended names preserve that order, and — when the comment-matched names are
distinct — the final list contains no duplicate column names.
(`SimpleSQLAgent.get_relevant_schema` instead supplements only when the
match is empty and caps at 15; see the counterexample.) -/
theorem analyzer_columns_supplement (db : Database) (query : String)
    (table_names : List String) (table : String)
    (htab : table ∈ table_names)
    (hnodup : ((matchedColumns db query table).map
      (fun c => c.column_name)).Nodup) :
    ((analyzer_columns_for db query table_names table).map
      (fun c => c.column_name)).Nodup ∧
    ((matchedColumns db query table).length < 3 →
      (∀ b ∈ basicColumns db table,
        b.column_name ∈
          (analyzer_columns_for db query table_names table).map
            (fun c => c.column_name)) ∧
      ∃ rest,
        analyzer_columns_for db query table_names table =
          (matchedColumns db query table).map ColumnCommentRow.toColInfo ++
            rest ∧
        List.Sublist (rest.map (fun c => c.column_name))
          ((basicColumns db table).map (fun c => c.column_name))) := by
  have hmapname : ((matchedColumns db query table).map
      ColumnCommentRow.toColInfo).map (fun c => c.column_name) =
      (matchedColumns db query table).map (fun c => c.column_name) := by
    simp [List.map_map, ColumnCommentRow.toColInfo, Function.comp]
  have hlen : ((matchedColumns db query table).map
      ColumnCommentRow.toColInfo).length =
      (matchedColumns db query table).length := List.length_map _ _
  have hdef : analyzer_columns_for db query table_names table =
      (if ((matchedColumns db query table).map
            ColumnCommentRow.toColInfo).length < 3
       then supplementColumns table
         ((matchedColumns db query table).map ColumnCommentRow.toColInfo)
         (basicColumns db table)
       else (matchedColumns db query table).map ColumnCommentRow.toColInfo) := by
    show (if table ∈ table_names then _ else _) = _
    rw [if_pos htab]
  by_cases hl : ((matchedColumns db query table).map
      ColumnCommentRow.toColInfo).length < 3
  · obtain ⟨rest, h1, h2, _, h4⟩ := supplementColumns_structure table
      (basicColumns db table)
      ((matchedColumns db query table).map ColumnCommentRow.toColInfo)
    rw [hdef, if_pos hl]
    constructor
    · rw [h1]
      exact h4 (by rw [hmapname]; exact hnodup)
    · intro _
      constructor
      · intro b hb
        exact supplementColumns_covers table (basicColumns db table) _ b hb
      · exact ⟨rest, h1, h2⟩
  · rw [hdef, if_neg hl]
    constructor
    · rw [hmapname]
      exact hnodup
    · intro hcon
      exact ((hl (by rw [hlen]; exact hcon)).elim)

/-- Witness for C3's amended theorem: the `sales` table matches one column
for the question `amount`, fewer than 3. -/
theorem analyzer_columns_supplement_witness :
    ("sales" ∈ ["sales"] ∧
      ((matchedColumns dbSales "amount" "sales").map
        (fun c => c.column_name)).Nodup) ∧
    (((analyzer_columns_for dbSales "amount" ["sales"] "sales").map
      (fun c => c.column_name)).Nodup ∧
    ((matchedColumns dbSales "amount" "sales").length < 3 →
      (∀ b ∈ basicColumns dbSales "sales",
        b.column_name ∈
          (analyzer_columns_for dbSales "amount" ["sales"] "sales").map
            (fun c => c.column_name)) ∧
      ∃ rest,
        analyzer_columns_for dbSales "amount" ["sales"] "sales" =
          (matchedColumns dbSales "amount" "sales").map
            ColumnCommentRow.toColInfo ++ rest ∧
        List.Sublist (rest.map (fun c => c.column_name))
          ((basicColumns dbSales "sales").map (fun c => c.column_name)))) :=
  ⟨⟨by decide, by decide⟩,
    analyzer_columns_supplement dbSales "amount" ["sales"] "sales"
      (by decide) (by decide)⟩

/-- Counterexample to **C3** as stated: in `SimpleSQLAgent`, table `sales`
yields exactly one comment-matched column for the question `amount` — fewer
than 3 — yet its column list is not supplemented: the introspection column
`region` is absent from the final list. -/
theorem simple_columns_not_supplemented :
    (simple_matched_columns dbSales "amount" "sales").length = 1 ∧
    (simple_columns_for dbSales "amount" "sales").map
      (fun c => c.column_name) = ["amount"] ∧
    "region" ∈ (dbSales.info_columns.filter
      (fun c => c.table_name == "sales")).map (fun c => c.column_name) ∧
    "region" ∉ (simple_columns_for dbSales "amount" "sales").map
      (fun c => c.column_name) := by
  refine ⟨by decide, by decide, by decide, by decide⟩

/-- No public call writes the agent state: each operation returns the state
it was given. -/
theorem applyCall_state (w : World) (s : AgentState) (c : AgentCall) :
    (applyCall w s c).2 = s := by
  cases c with
  | gen q =>
      show (generate_sql w s q).2 = s
      simp only [generate_sql]
      cases w.llm 0 (mkPrompt q (minimal_get_relevant_schema w.meta q)) with
      | transportError m => rfl
      | response st tx body =>
          dsimp only
          split
          · cases body <;> rfl
          · rfl
  | exec sql =>
      show (execute_query w s sql).2 = s
      simp only [execute_query]
      cases w.runSql sql <;> rfl
  | validate sql =>
      show (validate_sql w s sql).2 = s
      simp only [validate_sql]
      cases w.runSql ("EXPLAIN " ++ sql) <;> rfl

/-- **C6** (confirmed).  Every call to `generate_sql`, `execute_query`, or
`validate_sql` is a stateless request/response: against a fixed external
world (the database reached through the one connection and the LLM
endpoint), any sequence of prior calls — failing ones included — leaves the
agent state unchanged, and a later call returns exactly what it would have
returned with no history. -/
theorem agent_calls_stateless (w : World) (s : AgentState)
    (cs : List AgentCall) (c : AgentCall) :
    runCalls w s cs = s ∧
    (applyCall w (runCalls w s cs) c).1 = (applyCall w s c).1 := by
  have hrun : ∀ cs' : List AgentCall, runCalls w s cs' = s := by
    intro cs'
    induction cs' with
    | nil => rfl
    | cons d ds ih =>
        show runCalls w (applyCall w s d).2 ds = s
        rw [applyCall_state]
        exact ih
  exact ⟨hrun cs, by rw [hrun cs]⟩

/-- **C7** (confirmed).  `execute_query` maps a raised database error to
`{success: false, error: message}` with `data = None` and no partial
results; on success it returns the full record set, the column list, and the
row count. -/
theorem execute_query_error_mapping (w : World) (s : AgentState)
    (sql : String) :
    (∀ e, w.runSql sql = .error e →
      (execute_query w s sql).1 = ⟨false, none, none, none, some e⟩) ∧
    (∀ df, w.runSql sql = .ok df →
      (execute_query w s sql).1 =
        ⟨true, some df.toRecords, some df.columns, some df.rows.length,
          none⟩) := by
  constructor
  · intro e he
    simp only [execute_query, he]
  · intro df hdf
    simp only [execute_query, hdf]

/-- Witness for C7 against a failing and a succeeding database. -/
theorem execute_query_error_mapping_witness :
    (wDivZero.runSql "SELECT 1/0" = .error "division by zero" ∧
      (execute_query wDivZero agent0 "SELECT 1/0").1 =
        ⟨false, none, none, none, some "division by zero"⟩) ∧
    (wOneRow.runSql "SELECT count(*) FROM t" = .ok dfOneRow ∧
      (execute_query wOneRow agent0 "SELECT count(*) FROM t").1 =
        ⟨true, some dfOneRow.toRecords, some dfOneRow.columns,
          some dfOneRow.rows.length, none⟩) :=
  ⟨⟨rfl, (execute_query_error_mapping wDivZero agent0 "SELECT 1/0").1
      "division by zero" rfl⟩,
   ⟨rfl, (execute_query_error_mapping wOneRow agent0
      "SELECT count(*) FROM t").2 dfOneRow rfl⟩⟩

/-- **C8** (confirmed).  A valid query with an empty result set yields
success with `row_count = 0` and `data = []`, not an error. -/
theorem execute_query_empty_result (w : World) (s : AgentState)
    (sql : String) (cols : List String)
    (h : w.runSql sql = .ok ⟨cols, []⟩) :
    (execute_query w s sql).1.success = true ∧
    (execute_query w s sql).1.row_count = some 0 ∧
    (execute_query w s sql).1.data = some [] ∧
    (execute_query w s sql).1.error = none := by
  simp [execute_query, h, DataFrame.toRecords]

/-- Witness for C8 against a database answering zero rows. -/
theorem execute_query_empty_result_witness :
    (execute_query wNoRows agent0 "SELECT id FROM t WHERE false").1.success =
      true ∧
    (execute_query wNoRows agent0 "SELECT id FROM t WHERE false").1.row_count =
      some 0 ∧
    (execute_query wNoRows agent0 "SELECT id FROM t WHERE false").1.data =
      some [] ∧
    (execute_query wNoRows agent0 "SELECT id FROM t WHERE false").1.error =
      none :=
  execute_query_empty_result wNoRows agent0 "SELECT id FROM t WHERE false"
    ["id"] rfl

/-- **C9** (confirmed).  `generate_sql` maps a transport failure, a
non-success HTTP status, or a malformed response body to
`{success: false, error: message}` with `query = None`; on a 200 response
with a well-formed body it returns the content with code fences stripped and
whitespace trimmed.  The result depends only on the single (attempt-0) call
to the endpoint — there is no retry consulting any later attempt. -/
theorem generate_sql_outcomes (w : World) (s : AgentState) (q : String) :
    (∀ m, w.llm 0 (mkPrompt q (minimal_get_relevant_schema w.meta q)) =
        .transportError m →
      (generate_sql w s q).1 = ⟨false, none, none, some m⟩) ∧
    (∀ st tx body,
      w.llm 0 (mkPrompt q (minimal_get_relevant_schema w.meta q)) =
        .response st tx body → st ≠ 200 →
      (generate_sql w s q).1 =
        ⟨false, none, none,
          some ("OpenAI API error: " ++ toString st ++ " - " ++ tx)⟩) ∧
    (∀ tx m, w.llm 0 (mkPrompt q (minimal_get_relevant_schema w.meta q)) =
        .response 200 tx (.malformed m) →
      (generate_sql w s q).1 = ⟨false, none, none, some m⟩) ∧
    (∀ tx content,
      w.llm 0 (mkPrompt q (minimal_get_relevant_schema w.meta q)) =
        .response 200 tx (.wellFormed content) →
      (generate_sql w s q).1 =
        ⟨true, some (cleanSql content),
          some (pySlice (minimal_get_relevant_schema w.meta q) 500), none⟩) ∧
    (∀ w' : World, w'.meta = w.meta →
      (∀ p, w'.llm 0 p = w.llm 0 p) →
      (generate_sql w' s q).1 = (generate_sql w s q).1) := by
  refine ⟨?_, ?_, ?_, ?_, ?_⟩
  · intro m hm
    simp only [generate_sql, hm]
  · intro st tx body hresp hst
    simp [generate_sql, hresp, beq_iff_eq, hst]
  · intro tx m h200
    simp [generate_sql, h200]
  · intro tx content h200
    simp [generate_sql, h200]
  · intro w' hmeta hllm
    simp only [generate_sql, hmeta, hllm]

/-- Witness for C9 across the four outcome shapes. -/
theorem generate_sql_outcomes_witness :
    ((generate_sql wLlmDown agent0 "q").1 =
      ⟨false, none, none, some "connection refused"⟩) ∧
    ((generate_sql wLlmHttp500 agent0 "q").1 =
      ⟨false, none, none,
        some ("OpenAI API error: " ++ toString 500 ++ " - " ++
          "server error")⟩) ∧
    ((generate_sql wLlmMalformed agent0 "q").1 =
      ⟨false, none, none, some "KeyError: choices"⟩) ∧
    ((generate_sql wLlmOk agent0 "q").1 =
      ⟨true, some (cleanSql "```sql\nSELECT count(*) FROM country;\n```"),
        some (pySlice (minimal_get_relevant_schema wLlmOk.meta "q") 500),
        none⟩) :=
  ⟨(generate_sql_outcomes wLlmDown agent0 "q").1 "connection refused" rfl,
   (generate_sql_outcomes wLlmHttp500 agent0 "q").2.1 500 "server error"
     (.malformed "KeyError: choices") rfl (by decide),
   (generate_sql_outcomes wLlmMalformed agent0 "q").2.2.1 "{}"
     "KeyError: choices" rfl,
   (generate_sql_outcomes wLlmOk agent0 "q").2.2.2.1 "raw"
     "```sql\nSELECT count(*) FROM country;\n```" rfl⟩

/-- **C10** (confirmed).  Whenever `generate_sql` succeeds, the
`schema_context` field of its result is the 500-character slice of the full
formatted schema context: a prefix of it, at most 500 characters long. -/
theorem generate_sql_context_truncated (w : World) (s : AgentState)
    (q : String) (h : (generate_sql w s q).1.success = true) :
    (generate_sql w s q).1.schema_context =
      some (pySlice (minimal_get_relevant_schema w.meta q) 500) ∧
    List.IsPrefix (pySlice (minimal_get_relevant_schema w.meta q) 500).data
      (minimal_get_relevant_schema w.meta q).data ∧
    (pySlice (minimal_get_relevant_schema w.meta q) 500).length ≤ 500 := by
  refine ⟨?_, List.take_prefix _ _, ?_⟩
  · rcases hll : w.llm 0 (mkPrompt q (minimal_get_relevant_schema w.meta q))
      with m | ⟨st, tx, body⟩
    · simp [generate_sql, hll] at h
    · by_cases hst : (st == 200) = true
      · cases body with
        | wellFormed content => simp [generate_sql, hll, hst]
        | malformed m => simp [generate_sql, hll, hst] at h
      · simp [generate_sql, hll, hst] at h
  · show (List.take 500 (minimal_get_relevant_schema w.meta q).data).length ≤
      500
    simp [List.length_take]

/-- Witness for C10 at a successful generation. -/
theorem generate_sql_context_truncated_witness :
    (generate_sql wLlmOk agent0 "list countries").1.success = true ∧
    ((generate_sql wLlmOk agent0 "list countries").1.schema_context =
      some (pySlice
        (minimal_get_relevant_schema wLlmOk.meta "list countries") 500) ∧
    List.IsPrefix
      (pySlice
        (minimal_get_relevant_schema wLlmOk.meta "list countries") 500).data
      (minimal_get_relevant_schema wLlmOk.meta "list countries").data ∧
    (pySlice
      (minimal_get_relevant_schema wLlmOk.meta "list countries") 500).length ≤
      500) :=
  ⟨by decide,
    generate_sql_context_truncated wLlmOk agent0 "list countries" (by decide)⟩
